import Mathlib

/-!
# Verification of the orchestrator dispatch core

Shallow embedding of the command-dispatch server of this repository
(`src/orchestrator/app/server/server.py`, the socket-based server, and
`src/orchestrator/server.py`, the earlier HTTP/socket hybrid), together
with proofs and refutations of the specified dispatch properties.

Modelling conventions:
* Python `dict`s are modelled as association lists (`Dict`) with
  update-in-place insertion and first-occurrence deletion, matching
  Python semantics for the patterns the server uses (keys are unique
  by construction).
* `queue.Queue` per device is a FIFO `List`; `put` appends, `get` takes
  the head.
* `uuid.uuid4()` command ids are modelled by a fresh-natural counter in
  the state: all that the server relies on is global uniqueness.
* Socket ids (`request.sid`) are opaque naturals; command payloads are
  opaque naturals (their content is invisible to the dispatch core).
* `socketio.emit('execute_command', ..., to=sid)` is recorded as a
  `Delivery` in an output list.  Where a claim concerns a failing write,
  a variant `send_next_command_f` takes the set of socket ids for which
  `emit` raises, mirroring how an exception would propagate through the
  Python code (the dequeue has already happened; the `busy` assignment
  after the `emit` does not run; the caller catches the exception).
-/

/-- Association-list model of a Python `dict`: updating an existing key
replaces its value in place, a new key is appended at the end. -/
abbrev Dict (α β : Type) : Type := List (α × β)

namespace Dict

def lookup [DecidableEq α] (k : α) : Dict α β → Option β
  | [] => none
  | (k', v) :: rest => if k' = k then some v else lookup k rest

def insert [DecidableEq α] (k : α) (v : β) : Dict α β → Dict α β
  | [] => [(k, v)]
  | (k', v') :: rest => if k' = k then (k, v) :: rest else (k', v') :: insert k v rest

def erase [DecidableEq α] (k : α) : Dict α β → Dict α β
  | [] => []
  | (k', v') :: rest => if k' = k then rest else (k', v') :: erase k rest

end Dict


/-- Worker lifecycle flag: the string values `'ready'` / `'busy'` stored in
`device_status`. -/
inductive Status where
  | ready : Status
  | busy : Status
deriving DecidableEq, Repr

/-- One `socketio.emit('execute_command', ..., to=sid)` call: the message the
server pushes to a worker's socket. -/
structure Delivery where
  device_id : String
  command_id : Nat
  command : Nat
  sid : Nat
deriving DecidableEq, Repr

/-- Outcome of a command submission: the `command_status` ack.  `added`
carries the resolved device id (logged by the server) and the generated
command id (returned in the ack); `failed` is the caught-exception path. -/
inductive AddResult where
  | added (device_id : String) (command_id : Nat) : AddResult
  | failed : AddResult
deriving DecidableEq, Repr

/-- Outcome of a connect attempt: `ok` for an accepted session, `terminated`
when the server calls `disconnect()` on the incoming connection. -/
inductive ConnectResult where
  | ok : ConnectResult
  | terminated : ConnectResult
deriving DecidableEq, Repr

/-- The module-level mutable state of `src/orchestrator/app/server/server.py`:
`device_status`, `device_queues`, `device_sockets`,
`device_connection_order`, `device_connection_order_dict`,
`orchestrator_connected`, `orchestrator`, plus the fresh-id counter
standing in for `uuid.uuid4()`. -/
structure ServerState where
  device_status : Dict String Status
  device_queues : Dict String (List (Nat × Nat))
  device_sockets : Dict String Nat
  device_connection_order : Nat
  device_connection_order_dict : Dict Nat String
  orchestrator_connected : Bool
  orchestrator : Option Nat
  next_command_id : Nat
deriving DecidableEq, Repr

/-- The state at module load: every dict empty, counter `0`, no
orchestrator. -/
def initState : ServerState :=
  { device_status := []
    device_queues := []
    device_sockets := []
    device_connection_order := 0
    device_connection_order_dict := []
    orchestrator_connected := false
    orchestrator := none
    next_command_id := 0 }

/-- `send_next_command(device_id)` of `app/server/server.py`, with `emit`
failure injection: `failing_sids` is the set of socket ids for which
`socketio.emit` raises.  If the device's queue is non-empty the head is
dequeued unconditionally; only then is the socket looked up.  On a
successful emit the status is set to `busy` and the delivery recorded; on
a raising emit the function is abandoned after the dequeue (the returned
flag marks the escaped exception); with no socket the dequeued command is
silently dropped. -/
def send_next_command_f (failing_sids : List Nat) (device_id : String)
    (s : ServerState) : ServerState × List Delivery × Bool :=
  match Dict.lookup device_id s.device_queues with
  | some ((command_id, command) :: rest) =>
    let s1 := { s with device_queues := Dict.insert device_id rest s.device_queues }
    match Dict.lookup device_id s1.device_sockets with
    | some sid =>
      if sid ∈ failing_sids then
        (s1, [], true)
      else
        ({ s1 with device_status := Dict.insert device_id Status.busy s1.device_status },
         [⟨device_id, command_id, command, sid⟩], false)
    | none => (s1, [], false)
  | _ => (s, [], false)

/-- `send_next_command(device_id)` of `app/server/server.py` with every
`emit` succeeding. -/
def send_next_command (device_id : String) (s : ServerState) :
    ServerState × List Delivery :=
  let (s', ds, _) := send_next_command_f [] device_id s
  (s', ds)

/-- The `connect` handler of `app/server/server.py`: an `"orchestrator"`
connect is accepted only while no orchestrator is connected, a second one
is terminated via `disconnect()`; any other id is installed as a ready
worker, its socket recorded, and a fresh connection-order rank consumed
and mapped to the id. -/
def handle_connect (device_id : String) (sid : Nat) (s : ServerState) :
    ServerState × ConnectResult :=
  if device_id = "orchestrator" ∧ s.orchestrator_connected = false then
    ({ s with orchestrator_connected := true, orchestrator := some sid },
     ConnectResult.ok)
  else if device_id = "orchestrator" ∧ s.orchestrator_connected = true then
    (s, ConnectResult.terminated)
  else
    let order := s.device_connection_order + 1
    ({ s with
        device_status := Dict.insert device_id Status.ready s.device_status
        device_sockets := Dict.insert device_id sid s.device_sockets
        device_connection_order := order
        device_connection_order_dict :=
          Dict.insert order device_id s.device_connection_order_dict },
     ConnectResult.ok)

/-- The `disconnect` handler of `app/server/server.py`: deletes the
device's `device_status`, `device_queues` and `device_sockets` entries
when present, and clears the orchestrator slot when the id is
`"orchestrator"`.  The rank dict is never touched. -/
def handle_disconnect (device_id : String) (s : ServerState) : ServerState :=
  let s1 := { s with
      device_status := Dict.erase device_id s.device_status
      device_queues := Dict.erase device_id s.device_queues
      device_sockets := Dict.erase device_id s.device_sockets }
  if device_id = "orchestrator" then
    { s1 with orchestrator_connected := false, orchestrator := none }
  else s1

/-- The `add_command` handler of `app/server/server.py`: the target is
`command['number']`, resolved through `device_connection_order_dict`; an
unknown number raises `KeyError`, caught as the `failed` ack with no state
change.  Otherwise a fresh command id is generated, the command appended
to the device's queue (created if absent), the ack emitted, and
`send_next_command` invoked. -/
def handle_add_command (number : Nat) (command : Nat) (s : ServerState) :
    ServerState × AddResult × List Delivery :=
  match Dict.lookup number s.device_connection_order_dict with
  | none => (s, AddResult.failed, [])
  | some device_id =>
    let command_id := s.next_command_id
    let q := (Dict.lookup device_id s.device_queues).getD []
    let s1 := { s with
        device_queues := Dict.insert device_id (q ++ [(command_id, command)]) s.device_queues
        next_command_id := command_id + 1 }
    let (s2, ds) := send_next_command device_id s1
    (s2, AddResult.added device_id command_id, ds)

/-- The `command_result` handler of `app/server/server.py` on a well-formed
payload (`device_id`, `command_id`, `result` keys all present): it sets
`device_status[device_id] = 'ready'` unconditionally — creating the entry
if the device is unknown, and never comparing `command_id` against
anything — then invokes `send_next_command`.  The `result` value is only
logged. -/
def handle_command_result (device_id : String) (command_id : Nat)
    (s : ServerState) : ServerState × List Delivery :=
  let _ := command_id
  let s1 := { s with device_status := Dict.insert device_id Status.ready s.device_status }
  send_next_command device_id s1

/-- The module-level state of the earlier `src/orchestrator/server.py`:
`device_status` and `device_queues` only (no sockets, no ranks), plus the
fresh-id counter standing in for `uuid.uuid4()`. -/
structure LegacyState where
  device_status : Dict String Status
  device_queues : Dict String (List (Nat × Nat))
  next_command_id : Nat
deriving DecidableEq, Repr

/-- The legacy server's state at module load. -/
def initLegacy : LegacyState :=
  { device_status := [], device_queues := [], next_command_id := 0 }

/-- The `/add_command` HTTP handler of `src/orchestrator/server.py` on a
well-formed body: it takes `device_id` directly from the request, creates
the device's queue if absent — with no check of any kind that the id is
known — appends the command, and returns the fresh command id with
status 200. -/
def add_command (device_id : String) (command : Nat) (s : LegacyState) :
    LegacyState × AddResult :=
  let command_id := s.next_command_id
  let q := (Dict.lookup device_id s.device_queues).getD []
  ({ s with
      device_queues := Dict.insert device_id (q ++ [(command_id, command)]) s.device_queues
      next_command_id := command_id + 1 },
   AddResult.added device_id command_id)

/-! ## Trace semantics

An execution of the socket server is a list of externally triggered
events, each handled to completion (the global lock serializes the
handlers).  `step` additionally records, per `add_command` event, which
device the submission resolved to and the command id it was assigned, so
that delivery order can be compared with submission order. -/

/-- An externally triggered event of `app/server/server.py`. -/
inductive Event where
  | connect (device_id : String) (sid : Nat) : Event
  | disconnect (device_id : String) : Event
  | addCommand (number : Nat) (command : Nat) : Event
  | commandResult (device_id : String) (command_id : Nat) : Event
deriving DecidableEq, Repr

/-- A submission record: the device id an accepted `add_command` resolved
to, and the command id it was assigned. -/
abbrev Submission := String × Nat

/-- One handler invocation: the new state, the deliveries it emitted, and
the submission it accepted (if the event was an accepted `add_command`). -/
def step (s : ServerState) : Event → ServerState × List Delivery × List Submission
  | Event.connect d sid => ((handle_connect d sid s).1, [], [])
  | Event.disconnect d => (handle_disconnect d s, [], [])
  | Event.addCommand n c =>
    let (s', r, ds) := handle_add_command n c s
    (s', ds,
      match r with
      | AddResult.added d cid => [(d, cid)]
      | AddResult.failed => [])
  | Event.commandResult d cid =>
    let (s', ds) := handle_command_result d cid s
    (s', ds, [])

/-- Run a list of events from a state, concatenating the delivery and
submission logs in order. -/
def run (s : ServerState) : List Event → ServerState × List Delivery × List Submission
  | [] => (s, [], [])
  | e :: es =>
    let (s1, ds1, sub1) := step s e
    let (s2, ds2, sub2) := run s1 es
    (s2, ds1 ++ ds2, sub1 ++ sub2)

/-- The pending queue of a device (`device_queues[w]`, or empty when the
key is absent). -/
def queueOf (w : String) (s : ServerState) : List (Nat × Nat) :=
  (Dict.lookup w s.device_queues).getD []

/-- The command ids still queued for a device. -/
def queueIds (w : String) (s : ServerState) : List Nat :=
  (queueOf w s).map Prod.fst

/-- The command ids delivered to a device, in emission order. -/
def deliveredFor (w : String) (ds : List Delivery) : List Nat :=
  ds.filterMap (fun d => if d.device_id = w then some d.command_id else none)

/-- The command ids accepted for a device, in submission order. -/
def submittedFor (w : String) (subs : List Submission) : List Nat :=
  subs.filterMap (fun p => if p.1 = w then some p.2 else none)

/-! ## Well-formedness and dispatch lemmas -/

/-- All four dicts of the server state have pairwise distinct keys.  This
holds in every reachable state because Python dict keys are unique; the
model's `insert`/`erase` preserve it. -/
def KeysOk (s : ServerState) : Prop :=
  (s.device_status.map Prod.fst).Nodup ∧
  (s.device_queues.map Prod.fst).Nodup ∧
  (s.device_sockets.map Prod.fst).Nodup ∧
  (s.device_connection_order_dict.map Prod.fst).Nodup

instance (s : ServerState) : Decidable (KeysOk s) := by
  unfold KeysOk
  infer_instance

/-- The intermediate state of `handle_add_command` after the command has
been appended to the resolved device's queue (created if absent) and the
fresh id consumed, before `send_next_command` runs. -/
def enqueueState (d : String) (c : Nat) (s : ServerState) : ServerState :=
  { s with
      device_queues :=
        Dict.insert d ((queueOf d s) ++ [(s.next_command_id, c)]) s.device_queues
      next_command_id := s.next_command_id + 1 }

/-- The `add_command` handler of `app/server/server.py` with `emit`
failure injection, mirroring its `try/except`: the command is enqueued
and `send_next_command` invoked; if the `emit` inside raises, the
exception propagates back into the handler, which catches it, logs, and
emits a failure ack.  The returned flag marks that caught-exception
path. -/
def handle_add_command_f (failing_sids : List Nat) (number command : Nat)
    (s : ServerState) : ServerState × List Delivery × Bool :=
  match Dict.lookup number s.device_connection_order_dict with
  | none => (s, [], false)
  | some device_id =>
    let command_id := s.next_command_id
    let q := (Dict.lookup device_id s.device_queues).getD []
    let s1 := { s with
        device_queues := Dict.insert device_id (q ++ [(command_id, command)]) s.device_queues
        next_command_id := command_id + 1 }
    send_next_command_f failing_sids device_id s1

/-- Example state: worker `"a"` connected with socket `7` (rank `1`). -/
def exConnected : ServerState := (handle_connect "a" 7 initState).1

/-- Example state: worker `"a"` connected with socket `7` and one queued
command with id `5` and payload `10`. -/
def exQueued : ServerState :=
  { exConnected with
      device_queues := Dict.insert "a" [(5, 10)] exConnected.device_queues }

/-- Example state: one queued command for `"a"` but no socket for `"a"`
(such a queue arises when a command is enqueued by rank after `"a"`
disconnected, since rank mappings survive disconnect). -/
def exQueuedNoSocket : ServerState :=
  { initState with
      device_queues := Dict.insert "a" [(5, 10)] initState.device_queues }

/-- Example state: the orchestrator connected with socket `1`. -/
def exOrchestrator : ServerState := (handle_connect "orchestrator" 1 initState).1

namespace Dict

theorem lookup_insert_self [DecidableEq α] (k : α) (v : β) (m : Dict α β) :
    lookup k (insert k v m) = some v := by
  induction m with
  | nil => simp [insert, lookup]
  | cons hd tl ih =>
    obtain ⟨k', v'⟩ := hd
    by_cases h : k' = k
    · simp [insert, lookup, h]
    · simp [insert, lookup, h, ih]

theorem lookup_insert_ne [DecidableEq α] {k k' : α} (v : β) (m : Dict α β)
    (h : k ≠ k') : lookup k' (insert k v m) = lookup k' m := by
  induction m with
  | nil => simp [insert, lookup, h]
  | cons hd tl ih =>
    obtain ⟨k₀, v₀⟩ := hd
    by_cases h₀ : k₀ = k
    · subst h₀
      simp [insert, lookup, h, Ne.symm h]
    · simp [insert, lookup, h₀, ih]

theorem lookup_none_of_not_mem_keys [DecidableEq α] {k : α} {m : Dict α β}
    (h : k ∉ m.map Prod.fst) : lookup k m = none := by
  induction m with
  | nil => simp [lookup]
  | cons hd tl ih =>
    obtain ⟨k', v'⟩ := hd
    simp only [List.map_cons, List.mem_cons, not_or] at h
    simp [lookup, Ne.symm h.1, ih h.2]

theorem lookup_erase_self [DecidableEq α] (k : α) (m : Dict α β)
    (huniq : (m.map Prod.fst).Nodup) : lookup k (erase k m) = none := by
  induction m with
  | nil => simp [erase, lookup]
  | cons hd tl ih =>
    obtain ⟨k', v'⟩ := hd
    simp only [List.map_cons, List.nodup_cons] at huniq
    by_cases h : k' = k
    · subst h
      simpa [erase] using lookup_none_of_not_mem_keys huniq.1
    · simp [erase, lookup, h, ih huniq.2]

theorem lookup_erase_ne [DecidableEq α] {k k' : α} (m : Dict α β)
    (h : k ≠ k') : lookup k' (erase k m) = lookup k' m := by
  induction m with
  | nil => simp [erase, lookup]
  | cons hd tl ih =>
    obtain ⟨k₀, v₀⟩ := hd
    by_cases h₀ : k₀ = k
    · subst h₀
      simp [erase, lookup, h]
    · simp [erase, lookup, h₀, ih]

theorem mem_keys_insert [DecidableEq α] {x k : α} (v : β) (m : Dict α β) :
    x ∈ (insert k v m).map Prod.fst ↔ x = k ∨ x ∈ m.map Prod.fst := by
  induction m with
  | nil => simp [insert]
  | cons hd tl ih =>
    obtain ⟨k', v'⟩ := hd
    by_cases h : k' = k
    · subst h
      simp [insert]
    · simp only [insert, if_neg h, List.map_cons, List.mem_cons, ih]
      tauto

theorem keys_insert_nodup [DecidableEq α] (k : α) (v : β) {m : Dict α β}
    (h : (m.map Prod.fst).Nodup) : ((insert k v m).map Prod.fst).Nodup := by
  induction m with
  | nil => simp [insert]
  | cons hd tl ih =>
    obtain ⟨k', v'⟩ := hd
    simp only [List.map_cons, List.nodup_cons] at h
    by_cases h₀ : k' = k
    · subst h₀
      have he : insert k' v ((k', v') :: tl) = (k', v) :: tl := by
        simp [insert]
      rw [he, List.map_cons, List.nodup_cons]
      exact h
    · simp only [insert, if_neg h₀, List.map_cons, List.nodup_cons]
      refine ⟨?_, ih h.2⟩
      rw [mem_keys_insert]
      rintro (rfl | hmem)
      · exact h₀ rfl
      · exact h.1 hmem

theorem erase_sublist [DecidableEq α] (k : α) (m : Dict α β) :
    List.Sublist (erase k m) m := by
  induction m with
  | nil => simp [erase]
  | cons hd tl ih =>
    obtain ⟨k', v'⟩ := hd
    by_cases h : k' = k
    · simp [erase, h]
    · simpa [erase, h] using List.Sublist.cons₂ (k', v') ih

theorem keys_erase_nodup [DecidableEq α] (k : α) {m : Dict α β}
    (h : (m.map Prod.fst).Nodup) : ((erase k m).map Prod.fst).Nodup :=
  h.sublist ((erase_sublist k m).map Prod.fst)

end Dict

theorem handle_connect_queues (d : String) (sid : Nat) (s : ServerState) :
    (handle_connect d sid s).1.device_queues = s.device_queues := by
  unfold handle_connect
  split
  · rfl
  split
  · rfl
  · rfl

theorem send_next_queue_none (d : String) (s : ServerState)
    (hq : Dict.lookup d s.device_queues = none) :
    send_next_command d s = (s, []) := by
  unfold send_next_command send_next_command_f
  simp [hq]

theorem send_next_queue_nil (d : String) (s : ServerState)
    (hq : Dict.lookup d s.device_queues = some []) :
    send_next_command d s = (s, []) := by
  unfold send_next_command send_next_command_f
  simp [hq]

theorem send_next_no_socket (d : String) (s : ServerState) (cid c : Nat)
    (rest : List (Nat × Nat))
    (hq : Dict.lookup d s.device_queues = some ((cid, c) :: rest))
    (hs : Dict.lookup d s.device_sockets = none) :
    send_next_command d s =
      ({ s with device_queues := Dict.insert d rest s.device_queues }, []) := by
  unfold send_next_command send_next_command_f
  simp [hq, hs]

theorem send_next_deliver (d : String) (s : ServerState) (cid c sid : Nat)
    (rest : List (Nat × Nat))
    (hq : Dict.lookup d s.device_queues = some ((cid, c) :: rest))
    (hs : Dict.lookup d s.device_sockets = some sid) :
    send_next_command d s =
      ({ s with
          device_queues := Dict.insert d rest s.device_queues
          device_status := Dict.insert d Status.busy s.device_status },
       [⟨d, cid, c, sid⟩]) := by
  unfold send_next_command send_next_command_f
  simp [hq, hs]

theorem handle_add_command_unknown (n c : Nat) (s : ServerState)
    (hn : Dict.lookup n s.device_connection_order_dict = none) :
    handle_add_command n c s = (s, AddResult.failed, []) := by
  unfold handle_add_command
  simp [hn]

theorem handle_add_command_known (n c : Nat) (s : ServerState) (d : String)
    (hn : Dict.lookup n s.device_connection_order_dict = some d) :
    handle_add_command n c s =
      ((send_next_command d (enqueueState d c s)).1,
       AddResult.added d s.next_command_id,
       (send_next_command d (enqueueState d c s)).2) := by
  unfold handle_add_command enqueueState queueOf
  simp [hn]

theorem handle_command_result_eq (d : String) (cid : Nat) (s : ServerState) :
    handle_command_result d cid s =
      send_next_command d
        { s with device_status := Dict.insert d Status.ready s.device_status } := by
  unfold handle_command_result
  rfl

theorem send_next_sublist (d w : String) (s : ServerState) :
    List.Sublist
      (deliveredFor w (send_next_command d s).2 ++ queueIds w (send_next_command d s).1)
      (queueIds w s) := by
  rcases hq : Dict.lookup d s.device_queues with _ | (_ | ⟨⟨cid, c⟩, rest⟩)
  · rw [send_next_queue_none d s hq]
    simp [deliveredFor]
  · rw [send_next_queue_nil d s hq]
    simp [deliveredFor]
  · rcases hs : Dict.lookup d s.device_sockets with _ | sid
    · rw [send_next_no_socket d s cid c rest hq hs]
      by_cases hw : w = d
      · subst hw
        simp only [deliveredFor, List.filterMap_nil, List.nil_append, queueIds, queueOf,
          Dict.lookup_insert_self, Option.getD_some, hq]
        exact ((List.Sublist.refl rest).cons (cid, c)).map Prod.fst
      · simp [deliveredFor, queueIds, queueOf,
          Dict.lookup_insert_ne _ _ (fun hh => hw hh.symm)]
    · rw [send_next_deliver d s cid c sid rest hq hs]
      by_cases hw : w = d
      · subst hw
        simp [deliveredFor, queueIds, queueOf, Dict.lookup_insert_self, hq]
      · simp [deliveredFor, queueIds, queueOf, Ne.symm hw,
          Dict.lookup_insert_ne _ _ (fun hh => hw hh.symm)]

theorem send_next_keysOk (d : String) (s : ServerState) (h : KeysOk s) :
    KeysOk (send_next_command d s).1 := by
  obtain ⟨h1, h2, h3, h4⟩ := h
  rcases hq : Dict.lookup d s.device_queues with _ | (_ | ⟨⟨cid, c⟩, rest⟩)
  · rw [send_next_queue_none d s hq]
    exact ⟨h1, h2, h3, h4⟩
  · rw [send_next_queue_nil d s hq]
    exact ⟨h1, h2, h3, h4⟩
  · rcases hs : Dict.lookup d s.device_sockets with _ | sid
    · rw [send_next_no_socket d s cid c rest hq hs]
      exact ⟨h1, Dict.keys_insert_nodup d rest h2, h3, h4⟩
    · rw [send_next_deliver d s cid c sid rest hq hs]
      exact ⟨Dict.keys_insert_nodup d Status.busy h1,
        Dict.keys_insert_nodup d rest h2, h3, h4⟩

theorem step_addCommand_eq (n c : Nat) (s : ServerState) :
    step s (Event.addCommand n c) =
      ((handle_add_command n c s).1, (handle_add_command n c s).2.2,
        match (handle_add_command n c s).2.1 with
        | AddResult.added d cid => [(d, cid)]
        | AddResult.failed => []) := by
  rcases h : handle_add_command n c s with ⟨s', r, ds⟩
  simp [step, h]

theorem step_commandResult_eq (d : String) (cid : Nat) (s : ServerState) :
    step s (Event.commandResult d cid) =
      ((handle_command_result d cid s).1, (handle_command_result d cid s).2, []) := by
  rcases h : handle_command_result d cid s with ⟨s', ds⟩
  simp [step, h]

theorem step_keysOk (s : ServerState) (e : Event) (h : KeysOk s) :
    KeysOk (step s e).1 := by
  obtain ⟨h1, h2, h3, h4⟩ := h
  cases e with
  | connect d sid =>
    show KeysOk (handle_connect d sid s).1
    unfold handle_connect
    split
    · exact ⟨h1, h2, h3, h4⟩
    split
    · exact ⟨h1, h2, h3, h4⟩
    · exact ⟨Dict.keys_insert_nodup d Status.ready h1, h2,
        Dict.keys_insert_nodup d sid h3,
        Dict.keys_insert_nodup (s.device_connection_order + 1) d h4⟩
  | disconnect d =>
    show KeysOk (handle_disconnect d s)
    by_cases hd : d = "orchestrator" <;>
      simp only [handle_disconnect, hd, if_true, if_false, reduceIte] <;>
      exact ⟨Dict.keys_erase_nodup _ h1, Dict.keys_erase_nodup _ h2,
        Dict.keys_erase_nodup _ h3, h4⟩
  | addCommand n c =>
    rw [step_addCommand_eq]
    rcases hn : Dict.lookup n s.device_connection_order_dict with _ | d
    · rw [handle_add_command_unknown n c s hn]
      exact ⟨h1, h2, h3, h4⟩
    · rw [handle_add_command_known n c s d hn]
      exact send_next_keysOk d _ ⟨h1, Dict.keys_insert_nodup d _ h2, h3, h4⟩
  | commandResult d cid =>
    rw [step_commandResult_eq, handle_command_result_eq]
    exact send_next_keysOk d _ ⟨Dict.keys_insert_nodup d Status.ready h1, h2, h3, h4⟩

theorem handle_disconnect_queues (d : String) (s : ServerState) :
    (handle_disconnect d s).device_queues = Dict.erase d s.device_queues := by
  by_cases hd : d = "orchestrator" <;> simp [handle_disconnect, hd]

theorem queueIds_enqueue_self (d : String) (c : Nat) (s : ServerState) :
    queueIds d (enqueueState d c s) = queueIds d s ++ [s.next_command_id] := by
  simp [queueIds, queueOf, enqueueState, Dict.lookup_insert_self]

theorem queueIds_enqueue_ne (d w : String) (c : Nat) (s : ServerState) (h : w ≠ d) :
    queueIds w (enqueueState d c s) = queueIds w s := by
  simp [queueIds, queueOf, enqueueState,
    Dict.lookup_insert_ne _ _ (fun hh => h hh.symm)]

theorem step_sublist (s : ServerState) (e : Event) (w : String) (h : KeysOk s) :
    List.Sublist
      (deliveredFor w (step s e).2.1 ++ queueIds w (step s e).1)
      (queueIds w s ++ submittedFor w (step s e).2.2) := by
  cases e with
  | connect d sid =>
    show List.Sublist
      (deliveredFor w [] ++ queueIds w (handle_connect d sid s).1)
      (queueIds w s ++ submittedFor w [])
    simp [deliveredFor, submittedFor, queueIds, queueOf, handle_connect_queues]
  | disconnect d =>
    show List.Sublist
      (deliveredFor w [] ++ queueIds w (handle_disconnect d s))
      (queueIds w s ++ submittedFor w [])
    by_cases hw : w = d
    · subst hw
      have hnone : Dict.lookup w (handle_disconnect w s).device_queues = none := by
        rw [handle_disconnect_queues]
        exact Dict.lookup_erase_self w s.device_queues h.2.1
      simp [deliveredFor, submittedFor, queueIds, queueOf, hnone]
    · have hsame : Dict.lookup w (handle_disconnect d s).device_queues =
          Dict.lookup w s.device_queues := by
        rw [handle_disconnect_queues]
        exact Dict.lookup_erase_ne s.device_queues (fun hh => hw hh.symm)
      simp [deliveredFor, submittedFor, queueIds, queueOf, hsame]
  | addCommand n c =>
    rw [step_addCommand_eq]
    rcases hn : Dict.lookup n s.device_connection_order_dict with _ | d
    · rw [handle_add_command_unknown n c s hn]
      simp [deliveredFor, submittedFor]
    · rw [handle_add_command_known n c s d hn]
      by_cases hw : w = d
      · subst hw
        have h1 := send_next_sublist w w (enqueueState w c s)
        rw [queueIds_enqueue_self] at h1
        simpa [submittedFor] using h1
      · have h1 := send_next_sublist d w (enqueueState d c s)
        rw [queueIds_enqueue_ne d w c s hw] at h1
        simpa [submittedFor, show d ≠ w from fun hh => hw hh.symm] using h1
  | commandResult d cid =>
    rw [step_commandResult_eq, handle_command_result_eq]
    have h1 := send_next_sublist d w
      { s with device_status := Dict.insert d Status.ready s.device_status }
    simpa [queueIds, queueOf, submittedFor] using h1

theorem run_sublist (es : List Event) (s : ServerState) (w : String) (h : KeysOk s) :
    List.Sublist
      (deliveredFor w (run s es).2.1 ++ queueIds w (run s es).1)
      (queueIds w s ++ submittedFor w (run s es).2.2) := by
  induction es generalizing s with
  | nil => simp [run, deliveredFor, submittedFor]
  | cons e es ih =>
    rcases h1 : step s e with ⟨s1, ds1, sub1⟩
    rcases h2 : run s1 es with ⟨s2, ds2, sub2⟩
    have hrun : run s (e :: es) = (s2, ds1 ++ ds2, sub1 ++ sub2) := by
      simp [run, h1, h2]
    have hstep := step_sublist s e w h
    rw [h1] at hstep
    have hk := step_keysOk s e h
    rw [h1] at hk
    have htail := ih s1 hk
    rw [h2] at htail
    rw [hrun]
    simp only [deliveredFor, submittedFor, List.filterMap_append] at *
    rw [List.append_assoc]
    refine List.Sublist.trans (htail.append_left _) ?_
    rw [← List.append_assoc, ← List.append_assoc]
    exact hstep.append_right _

theorem handle_disconnect_status (d : String) (s : ServerState) :
    (handle_disconnect d s).device_status = Dict.erase d s.device_status := by
  by_cases hd : d = "orchestrator" <;> simp [handle_disconnect, hd]

theorem handle_disconnect_sockets (d : String) (s : ServerState) :
    (handle_disconnect d s).device_sockets = Dict.erase d s.device_sockets := by
  by_cases hd : d = "orchestrator" <;> simp [handle_disconnect, hd]

/-! ## The claimed properties -/

/-- Claim C1 (counterexample): a command is dequeued and delivered while
worker `"a"` is `busy`.  After `"a"` connects and one command is
submitted, `"a"` is `busy` with that command outstanding and unsettled;
submitting a second command nevertheless dequeues and delivers it at
once, so dispatch is not restricted to the `READY` state and two
commands are outstanding simultaneously. -/
theorem c1_dispatch_while_busy_cex :
    Dict.lookup "a"
        ((run initState [Event.connect "a" 7, Event.addCommand 1 10]).1).device_status
      = some Status.busy ∧
    (step (run initState [Event.connect "a" 7, Event.addCommand 1 10]).1
        (Event.addCommand 1 20)).2.1 = [⟨"a", 1, 20, 7⟩] := by
  decide

/-- Claim C1 (amended): dispatch is not gated on the worker's state.
Whenever the worker's queue is non-empty and a socket is registered,
`send_next_command` dequeues the head command — dispatch being the only
dequeue of individual commands — delivers exactly that command, and sets
the worker `busy`, regardless of the worker's current status, so several
commands can be outstanding at once. -/
theorem c1_dispatch_ungated (s : ServerState) (d : String) (cid c sid : Nat)
    (rest : List (Nat × Nat))
    (hq : Dict.lookup d s.device_queues = some ((cid, c) :: rest))
    (hs : Dict.lookup d s.device_sockets = some sid) :
    send_next_command d s =
      ({ s with
          device_queues := Dict.insert d rest s.device_queues
          device_status := Dict.insert d Status.busy s.device_status },
       [⟨d, cid, c, sid⟩]) :=
  send_next_deliver d s cid c sid rest hq hs

/-- Claim C1 witness: the amended dispatch fact at a concrete state. -/
theorem c1_dispatch_ungated_witness :
    send_next_command "a" exQueued =
      ({ exQueued with
          device_queues := Dict.insert "a" [] exQueued.device_queues
          device_status := Dict.insert "a" Status.busy exQueued.device_status },
       [⟨"a", 5, 10, 7⟩]) :=
  c1_dispatch_ungated exQueued "a" 5 10 7 [] (by decide) (by decide)

/-- Claim C2 (counterexample): a result for a worker id that has never
connected is not discarded without mutation: `handle_command_result`
creates a `device_status` entry for the unknown id and marks it
`ready`. -/
theorem c2_result_unknown_worker_mutates_cex :
    Dict.lookup "ghost" initState.device_status = none ∧
    Dict.lookup "ghost"
        (handle_command_result "ghost" 99 initState).1.device_status
      = some Status.ready := by
  decide

/-- Claim C2 (amended): the result handler performs no correlation-id or
known-worker check.  For any state, worker id and correlation id —
matched, stale, or belonging to an unknown worker — it sets the worker's
status to `ready` (creating the entry if absent) and invokes the
dispatch loop; when the worker's queue is empty that dispatch is a no-op
and the handler's entire effect is the unconditional status write. -/
theorem c2_result_always_accepted (s : ServerState) (d : String) (cid : Nat)
    (h : queueOf d s = []) :
    handle_command_result d cid s =
      ({ s with device_status := Dict.insert d Status.ready s.device_status },
       []) := by
  rw [handle_command_result_eq]
  rcases hq : Dict.lookup d s.device_queues with _ | q
  · exact send_next_queue_none d _ hq
  · have hq0 : q = [] := by simpa [queueOf, hq] using h
    subst hq0
    exact send_next_queue_nil d _ hq

/-- Claim C2 witness: a result for the unknown worker `"ghost"` with an
arbitrary correlation id is accepted and mutates the status dict. -/
theorem c2_result_always_accepted_witness :
    handle_command_result "ghost" 99 initState =
      ({ initState with
          device_status := Dict.insert "ghost" Status.ready initState.device_status },
       []) :=
  c2_result_always_accepted initState "ghost" 99 (by decide)

/-- Claim C3 (counterexample): in the legacy HTTP intake
(`src/orchestrator/server.py`), submitting a command for the id
`"never"`, which has never connected, does not fail with `UnknownWorker`:
it is acknowledged with a fresh command id and a queue entry is created
for the unknown id. -/
theorem c3_unknown_id_accepted_cex :
    (add_command "never" 5 initLegacy).2 = AddResult.added "never" 0 ∧
    Dict.lookup "never" (add_command "never" 5 initLegacy).1.device_queues
      = some [(0, 5)] := by
  decide

/-- Claim C3 (amended): only the rank-resolved intake rejects unknown
selectors: `handle_add_command` with a rank that has no mapping fails
(the `KeyError` is caught and a failure ack emitted) and leaves the state
completely untouched — no queue entry, no registry entry, no correlation
id consumed; the legacy id-addressed `add_command` performs no such check
and accepts commands for ids that have never connected. -/
theorem c3_unknown_rank_fails (n c : Nat) (s : ServerState)
    (hn : Dict.lookup n s.device_connection_order_dict = none) :
    handle_add_command n c s = (s, AddResult.failed, []) :=
  handle_add_command_unknown n c s hn

/-- Claim C3 witness: submitting for the unmapped rank `3` fails without
any state change. -/
theorem c3_unknown_rank_fails_witness :
    handle_add_command 3 5 initState = (initState, AddResult.failed, []) :=
  c3_unknown_rank_fails 3 5 initState (by decide)

/-- Claim C4 (counterexample): a second connect with the already-connected
worker id `"a"` is not rejected: it is accepted, the stored socket handle
is overwritten from `7` to `8`, and a second connection-order rank is
consumed — the existing session is not left unchanged. -/
theorem c4_duplicate_connect_accepted_cex :
    (handle_connect "a" 8 exConnected).2 = ConnectResult.ok ∧
    Dict.lookup "a" (handle_connect "a" 8 exConnected).1.device_sockets = some 8 ∧
    (handle_connect "a" 8 exConnected).1.device_connection_order = 2 := by
  decide

/-- Claim C4 (amended): duplicate-registration protection exists only for
the reserved `"orchestrator"` identity.  A connect with any other id is
always accepted — even when that id is already marked connected —
overwriting its status and socket entries and consuming a fresh
connection-order rank. -/
theorem c4_worker_connect_always_accepted (s : ServerState) (d : String)
    (sid : Nat) (h : d ≠ "orchestrator") :
    (handle_connect d sid s).2 = ConnectResult.ok ∧
    Dict.lookup d (handle_connect d sid s).1.device_status = some Status.ready ∧
    Dict.lookup d (handle_connect d sid s).1.device_sockets = some sid ∧
    (handle_connect d sid s).1.device_connection_order
      = s.device_connection_order + 1 := by
  simp [handle_connect, h, Dict.lookup_insert_self]

/-- Claim C4 witness: reconnecting the already-connected `"a"` with a new
socket is accepted and overwrites the session. -/
theorem c4_worker_connect_always_accepted_witness :
    (handle_connect "a" 8 exConnected).2 = ConnectResult.ok ∧
    Dict.lookup "a" (handle_connect "a" 8 exConnected).1.device_status
      = some Status.ready ∧
    Dict.lookup "a" (handle_connect "a" 8 exConnected).1.device_sockets = some 8 ∧
    (handle_connect "a" 8 exConnected).1.device_connection_order
      = exConnected.device_connection_order + 1 :=
  c4_worker_connect_always_accepted exConnected "a" 8 (by decide)

/-- Claim C5: per-worker FIFO.  For every event trace from the initial
state and every worker id, the sequence of command ids delivered to that
worker is an order-preserving subsequence of the command ids accepted for
that worker, whatever events for other workers are interleaved: commands
submitted for one worker are delivered in submission order, never
reordered. -/
theorem c5_delivered_fifo (es : List Event) (w : String) :
    List.Sublist (deliveredFor w (run initState es).2.1)
      (submittedFor w (run initState es).2.2) := by
  have h := run_sublist es initState w (by decide)
  have h0 : queueIds w initState = [] := by
    simp [queueIds, queueOf, initState, Dict.lookup]
  rw [h0] at h
  simp only [List.nil_append] at h
  exact (List.sublist_append_left _ _).trans h

/-- Claim C6: disconnecting a worker drops its status, queue and socket
entries (all queued commands discarded), and a subsequent reconnect with
the same id is accepted and starts `ready` with an empty queue and the
new socket handle — nothing is replayed. -/
theorem c6_disconnect_reconnect_fresh (s : ServerState) (w : String) (sid : Nat)
    (hk : KeysOk s) (hw : w ≠ "orchestrator") :
    Dict.lookup w (handle_disconnect w s).device_status = none ∧
    Dict.lookup w (handle_disconnect w s).device_queues = none ∧
    Dict.lookup w (handle_disconnect w s).device_sockets = none ∧
    (handle_connect w sid (handle_disconnect w s)).2 = ConnectResult.ok ∧
    Dict.lookup w
        (handle_connect w sid (handle_disconnect w s)).1.device_status
      = some Status.ready ∧
    queueOf w (handle_connect w sid (handle_disconnect w s)).1 = [] ∧
    Dict.lookup w
        (handle_connect w sid (handle_disconnect w s)).1.device_sockets
      = some sid := by
  obtain ⟨h1, h2, h3, h4⟩ := hk
  have hqnone : Dict.lookup w (handle_disconnect w s).device_queues = none := by
    rw [handle_disconnect_queues]
    exact Dict.lookup_erase_self w _ h2
  refine ⟨?_, hqnone, ?_, ?_, ?_, ?_, ?_⟩
  · rw [handle_disconnect_status]
    exact Dict.lookup_erase_self w _ h1
  · rw [handle_disconnect_sockets]
    exact Dict.lookup_erase_self w _ h3
  · simp [handle_connect, hw]
  · simp [handle_connect, hw, Dict.lookup_insert_self]
  · simp [queueOf, handle_connect_queues, hqnone]
  · simp [handle_connect, hw, Dict.lookup_insert_self]

/-- Claim C6 witness: worker `"a"`, connected with one queued command,
disconnects and reconnects with socket `9`: everything was dropped and
the session restarts fresh. -/
theorem c6_disconnect_reconnect_fresh_witness :
    Dict.lookup "a" (handle_disconnect "a" exQueued).device_status = none ∧
    Dict.lookup "a" (handle_disconnect "a" exQueued).device_queues = none ∧
    Dict.lookup "a" (handle_disconnect "a" exQueued).device_sockets = none ∧
    (handle_connect "a" 9 (handle_disconnect "a" exQueued)).2 = ConnectResult.ok ∧
    Dict.lookup "a"
        (handle_connect "a" 9 (handle_disconnect "a" exQueued)).1.device_status
      = some Status.ready ∧
    queueOf "a" (handle_connect "a" 9 (handle_disconnect "a" exQueued)).1 = [] ∧
    Dict.lookup "a"
        (handle_connect "a" 9 (handle_disconnect "a" exQueued)).1.device_sockets
      = some 9 :=
  c6_disconnect_reconnect_fresh exQueued "a" 9 (by decide) (by decide)

/-- Claim C7 (counterexample): a rank is consumed at every connect, not
only at an id's first connect.  Worker `"a"` connects (rank `1`, counter
`1`), disconnects, and reconnects: the reconnect consumes a second rank
(counter becomes `2`) and adds a second mapping `2 ↦ "a"` while `1 ↦ "a"`
also persists. -/
theorem c7_reconnect_consumes_rank_cex :
    (run initState [Event.connect "a" 7, Event.disconnect "a",
        Event.connect "a" 8]).1.device_connection_order = 2 ∧
    Dict.lookup 2 (run initState [Event.connect "a" 7, Event.disconnect "a",
        Event.connect "a" 8]).1.device_connection_order_dict = some "a" ∧
    Dict.lookup 1 (run initState [Event.connect "a" 7, Event.disconnect "a",
        Event.connect "a" 8]).1.device_connection_order_dict = some "a" := by
  decide

/-- Claim C7 (amended): every worker connect — first connect or reconnect
of a previously seen id alike — consumes a fresh, monotonically
increasing connection-order rank, and the new rank is mapped back to the
connecting worker id by the rank dict. -/
theorem c7_rank_every_connect (s : ServerState) (d : String) (sid : Nat)
    (h : d ≠ "orchestrator") :
    (handle_connect d sid s).1.device_connection_order
      = s.device_connection_order + 1 ∧
    Dict.lookup (s.device_connection_order + 1)
        (handle_connect d sid s).1.device_connection_order_dict = some d := by
  simp [handle_connect, h, Dict.lookup_insert_self]

/-- Claim C7 witness: a second, distinct worker `"b"` connecting after
`"a"` consumes the next rank `2`, mapped to `"b"`. -/
theorem c7_rank_every_connect_witness :
    (handle_connect "b" 9 exConnected).1.device_connection_order
      = exConnected.device_connection_order + 1 ∧
    Dict.lookup (exConnected.device_connection_order + 1)
        (handle_connect "b" 9 exConnected).1.device_connection_order_dict
      = some "b" :=
  c7_rank_every_connect exConnected "b" 9 (by decide)

/-- Claim C8: the single-controller invariant.  While an orchestrator
session is connected, a further connect attempt with the reserved
`"orchestrator"` identity is terminated (the incoming connection is
disconnected) and the server state is returned completely unchanged, so
the existing controller session is preserved and at most one controller
session exists. -/
theorem c8_second_orchestrator_rejected (s : ServerState) (sid : Nat)
    (h : s.orchestrator_connected = true) :
    handle_connect "orchestrator" sid s = (s, ConnectResult.terminated) := by
  simp [handle_connect, h]

/-- Claim C8 witness: with the orchestrator connected on socket `1`, a
second orchestrator connect on socket `2` is terminated and the state
kept. -/
theorem c8_second_orchestrator_rejected_witness :
    handle_connect "orchestrator" 2 exOrchestrator
      = (exOrchestrator, ConnectResult.terminated) :=
  c8_second_orchestrator_rejected exOrchestrator 2 (by decide)

/-- Claim C9 (counterexample): a failed delivery does not tear the
session down.  Worker `"a"` is connected with socket `7`; a command is
submitted for it and the emit to socket `7` raises.  The command is
consumed (queue left empty, nothing delivered, exception caught by the
intake handler) but the session survives intact: the socket and `ready`
status entries for `"a"` are still present, whereas the claimed
`unregister` teardown would have removed them. -/
theorem c9_delivery_failure_no_teardown_cex :
    (handle_add_command_f [7] 1 10 exConnected).2.2 = true ∧
    (handle_add_command_f [7] 1 10 exConnected).2.1 = [] ∧
    Dict.lookup "a" (handle_add_command_f [7] 1 10 exConnected).1.device_sockets
      = some 7 ∧
    Dict.lookup "a" (handle_add_command_f [7] 1 10 exConnected).1.device_status
      = some Status.ready ∧
    queueOf "a" (handle_add_command_f [7] 1 10 exConnected).1 = [] := by
  decide

/-- Claim C9 (amended): when delivery to the worker's socket fails, the
command that failed to send is indeed consumed — already dequeued, never
retried or requeued — but the worker session is not torn down by the
dispatch core: the exception escapes `send_next_command` right after the
dequeue, leaving the status, socket, registry and rank structures exactly
as they were; teardown happens only in the transport's separate
disconnect handler. -/
theorem c9_delivery_failure_consumes_only (fails : List Nat) (s : ServerState)
    (d : String) (cid c sid : Nat) (rest : List (Nat × Nat))
    (hq : Dict.lookup d s.device_queues = some ((cid, c) :: rest))
    (hs : Dict.lookup d s.device_sockets = some sid)
    (hf : sid ∈ fails) :
    send_next_command_f fails d s =
      ({ s with device_queues := Dict.insert d rest s.device_queues },
       [], true) := by
  unfold send_next_command_f
  simp [hq, hs, hf]

/-- Claim C9 witness: the failing dispatch at a concrete connected state
with one queued command. -/
theorem c9_delivery_failure_consumes_only_witness :
    send_next_command_f [7] "a" exQueued =
      ({ exQueued with
          device_queues := Dict.insert "a" [] exQueued.device_queues },
       [], true) :=
  c9_delivery_failure_consumes_only [7] exQueued "a" 5 10 7 []
    (by decide) (by decide) (by decide)

/-- Claim C10: dispatching for a worker whose queue is non-empty but which
has no registered socket silently drops the head command: it is removed
from the queue and discarded — not delivered, not requeued, no error
surfaced — and the worker's status is untouched (in particular never set
`busy`); the state is unchanged except for the shortened queue. -/
theorem c10_no_socket_drops_command (s : ServerState) (d : String)
    (cid c : Nat) (rest : List (Nat × Nat))
    (hq : Dict.lookup d s.device_queues = some ((cid, c) :: rest))
    (hs : Dict.lookup d s.device_sockets = none) :
    send_next_command d s =
      ({ s with device_queues := Dict.insert d rest s.device_queues }, []) :=
  send_next_no_socket d s cid c rest hq hs

/-- Claim C10 witness: the silent drop at a concrete state with a queued
command and no socket. -/
theorem c10_no_socket_drops_command_witness :
    send_next_command "a" exQueuedNoSocket =
      ({ exQueuedNoSocket with
          device_queues := Dict.insert "a" [] exQueuedNoSocket.device_queues },
       []) :=
  c10_no_socket_drops_command exQueuedNoSocket "a" 5 10 [] (by decide) (by decide)
